import Mathlib

/-!
Shallow embedding of the Document-Intelligence-Platform client
(`src/app/page.js`), a single React component `PDFChatInterface` with four
event handlers: `handleFileUpload`, `handleProcessFile`, `handleTryPrompt`
and `handleSavePrompt`.

Modelling choices:
* Server-supplied data is untyped JavaScript data, modelled by `JSVal`
  (undefined, null, booleans, integers, strings, objects), with JS
  truthiness, property access (absent property reads as undefined) and
  string coercion.
* The component state (`useState` hooks plus the `uploadedFile` ref) is the
  record `ClientState`.
* Each handler is a pure function from the pre-state and the network
  outcome (resolved response data, or a rejected promise carrying an error
  message) to a trace: a list of phases, each phase being the list of
  primitive actions (state-setter calls, alert calls, console.error calls,
  request emissions) performed in one synchronous block of the handler.
  React batches state updates inside a synchronous block, so renders — the
  observable states — occur only at phase boundaries: `obsStates` lists
  them, and `runTrace` gives the final state.
-/

namespace DocIntel

/-- A JavaScript value as far as this client inspects one. -/
inductive JSVal where
  | undefined : JSVal
  | null : JSVal
  | bool : Bool → JSVal
  | num : Int → JSVal
  | str : String → JSVal
  | obj : List (String × JSVal) → JSVal

/-- JavaScript truthiness of a `JSVal`. -/
def jsTruthy : JSVal → Bool
  | .undefined => false
  | .null => false
  | .bool b => b
  | .num n => n != 0
  | .str s => !s.isEmpty
  | .obj _ => true

/-- JavaScript property access `v.k`: fields of an object, `undefined`
otherwise (the client never reads a property off null/undefined). -/
def getField : JSVal → String → JSVal
  | .obj fields, k =>
    match fields.lookup k with
    | some v => v
    | none => .undefined
  | _, _ => .undefined

/-- The JavaScript `||` operator restricted to values: left operand if
truthy, otherwise the right operand. -/
def jsOr (a b : JSVal) : JSVal :=
  if jsTruthy a then a else b

/-- JavaScript string coercion, as performed by `"..." + v`. -/
def jsToString : JSVal → String
  | .undefined => "undefined"
  | .null => "null"
  | .bool b => if b then "true" else "false"
  | .num n => toString n
  | .str s => s
  | .obj _ => "[object Object]"

/-- The JavaScript guard `!str.trim()`: `String.prototype.trim` strips
leading and trailing whitespace, and the result is falsy exactly when it is
empty, i.e. when every character of `str` is whitespace. -/
def jsBlank (s : String) : Bool :=
  s.toList.all Char.isWhitespace

/-- The test `response.data.status === "success"` applied to the value of
the `status` property. -/
def isSuccessStatus : JSVal → Bool
  | .str s => s == "success"
  | _ => false

/-- A file handed over by the native picker; only its name is inspected. -/
structure DocFile where
  name : String
deriving DecidableEq

/-- A multipart form-data entry: either an appended file or appended text. -/
inductive FormPart where
  | file : DocFile → FormPart
  | text : String → FormPart

/-- A request body: multipart form data (process-document) or a JSON
object (try-prompt, save-prompt). -/
inductive ReqBody where
  | multipart : List (String × FormPart) → ReqBody
  | json : List (String × JSVal) → ReqBody

/-- An HTTP POST request issued via axios. -/
structure Request where
  url : String
  body : ReqBody

/-- Outcome of an awaited axios call: resolved with `response.data`, or
rejected (transport failure or non-2xx server reply) with `error.message`. -/
inductive NetOutcome where
  | ok : JSVal → NetOutcome
  | fail : String → NetOutcome

/-- The component state: the `useState` hooks of `PDFChatInterface` plus
the `uploadedFile` ref. -/
structure ClientState where
  schemaJson : String
  metadata : JSVal
  description : JSVal
  generatedJson : JSVal
  suggestedPrompt : JSVal
  userPrompt : String
  promptResult : JSVal
  pdfUrl : Option String
  fileType : String
  loading : Bool
  uploadedFile : Option DocFile

/-- The initial state of the component, from the `useState` initialisers. -/
def initState : ClientState where
  schemaJson := ""
  metadata := .obj []
  description := .str ""
  generatedJson := .obj []
  suggestedPrompt := .str ""
  userPrompt := ""
  promptResult := .null
  pdfUrl := none
  fileType := ""
  loading := false
  uploadedFile := none

/-- A primitive effect performed by a handler: a state-setter call, an
`alert`, a `console.error`, or the emission of a network request. -/
inductive Action where
  | alert : String → Action
  | consoleError : String → Action
  | emitRequest : Request → Action
  | setMetadata : JSVal → Action
  | setDescription : JSVal → Action
  | setGeneratedJson : JSVal → Action
  | setSuggestedPrompt : JSVal → Action
  | setPromptResult : JSVal → Action
  | setPdfUrl : Option String → Action
  | setFileType : String → Action
  | setLoading : Bool → Action
  | setUploadedFile : DocFile → Action

/-- Effect of a single action on the component state. -/
def applyAction (s : ClientState) : Action → ClientState
  | .alert _ => s
  | .consoleError _ => s
  | .emitRequest _ => s
  | .setMetadata v => { s with metadata := v }
  | .setDescription v => { s with description := v }
  | .setGeneratedJson v => { s with generatedJson := v }
  | .setSuggestedPrompt v => { s with suggestedPrompt := v }
  | .setPromptResult v => { s with promptResult := v }
  | .setPdfUrl v => { s with pdfUrl := v }
  | .setFileType v => { s with fileType := v }
  | .setLoading v => { s with loading := v }
  | .setUploadedFile f => { s with uploadedFile := some f }

/-- A trace: the phases (synchronous blocks) a handler runs, in order.
React applies the state updates of one phase as a single batch. -/
abbrev Trace := List (List Action)

/-- State after one phase (one synchronous block, batched by React). -/
def applyPhase (s : ClientState) (p : List Action) : ClientState :=
  p.foldl applyAction s

/-- Final state after a whole trace. -/
def runTrace (s : ClientState) (t : Trace) : ClientState :=
  t.foldl applyPhase s

/-- The observable (rendered) states: the initial state and the state after
each phase. Renders happen only between synchronous blocks. -/
def obsStates (s : ClientState) (t : Trace) : List ClientState :=
  t.scanl applyPhase s

/-- All actions of a trace in program order. -/
def traceActions (t : Trace) : List Action :=
  t.flatten

/-- The alert messages raised by a trace, in order. -/
def alertsOf (t : Trace) : List String :=
  (traceActions t).filterMap fun a =>
    match a with
    | .alert m => some m
    | _ => none

/-- The network requests issued by a trace, in order. -/
def requestsOf (t : Trace) : List Request :=
  (traceActions t).filterMap fun a =>
    match a with
    | .emitRequest r => some r
    | _ => none

/-- `file.name.split(".").pop().toLowerCase()`: the lowercased extension
(the whole lowercased name when it has no dot). -/
def extOf (name : String) : String :=
  ((name.splitOn ".").getLastD "").toLower

/-- `handleFileUpload`: reads `event.target.files[0]`; if a file is
present, stores it in the ref, records its extension, and for a PDF stores
a freshly created object URL as the preview handle (clearing it for other
types); if no file is delivered, does nothing. `freshUrl` stands for the
value returned by `URL.createObjectURL(file)`. -/
def handleFileUpload (files : List DocFile) (freshUrl : String) : Trace :=
  match files.head? with
  | none => []
  | some f =>
    [[.setUploadedFile f, .setFileType (extOf f.name)] ++
      (if extOf f.name = "pdf" then [.setPdfUrl (some freshUrl)]
       else [.setPdfUrl none])]

/-- The multipart request `handleProcessFile` builds: the uploaded file
under `file` and the schema text under `schema_json`, POSTed to the
process-document endpoint. -/
def processRequest (s : ClientState) (f : DocFile) : Request where
  url := "http://localhost:8000/process-document/"
  body := .multipart [("file", .file f), ("schema_json", .text s.schemaJson)]

/-- `handleProcessFile`: guards (no file, then blank schema) alert and
return without a request; otherwise one synchronous block sets the loading
flag and issues the request, and the continuation after the await either
stores the four result fields (success status), alerts with the server
message (other status), or alerts with the error message (rejection),
always resetting the loading flag in the `finally` block. -/
def handleProcessFile (s : ClientState) (outcome : NetOutcome) : Trace :=
  match s.uploadedFile with
  | none => [[.alert "❌ Please upload a file first."]]
  | some f =>
    if jsBlank s.schemaJson then
      [[.alert "❌ Please provide schema JSON in the textarea."]]
    else
      [ [.setLoading true, .emitRequest (processRequest s f)],
        match outcome with
        | .ok data =>
          if isSuccessStatus (getField data "status") then
            [ .setMetadata (getField data "metadata"),
              .setDescription (getField data "structured_markdown"),
              .setGeneratedJson (getField data "generated_json"),
              .setSuggestedPrompt
                (jsOr (getField data "suggested_prompt") (.str "")),
              .setLoading false ]
          else
            [ .alert ("❌ Error: " ++ jsToString (getField data "message")),
              .setLoading false ]
        | .fail msg =>
          [ .consoleError msg,
            .alert ("❌ API call failed: " ++ msg),
            .setLoading false ] ]

/-- The JSON request `handleTryPrompt` builds: the current user prompt and
the current description, POSTed to the try-prompt endpoint. -/
def tryPromptRequest (s : ClientState) : Request where
  url := "http://localhost:8000/try-prompt/"
  body := .json
    [("prompt", .str s.userPrompt), ("structured_markdown", s.description)]

/-- `handleTryPrompt`: silently returns when the trimmed prompt is empty;
otherwise issues the request and, after the await, stores the response's
`result` property, or on rejection stores a local error object. -/
def handleTryPrompt (s : ClientState) (outcome : NetOutcome) : Trace :=
  if jsBlank s.userPrompt then []
  else
    [ [.emitRequest (tryPromptRequest s)],
      match outcome with
      | .ok data => [.setPromptResult (getField data "result")]
      | .fail msg =>
        [ .consoleError msg,
          .setPromptResult (.obj [("error", .str "Failed to try prompt")]) ] ]

/-- The JSON request `handleSavePrompt` builds: the layout identifier from
the metadata and the current user prompt, POSTed to the save-prompt
endpoint. -/
def savePromptRequest (s : ClientState) : Request where
  url := "http://localhost:8000/save-prompt/"
  body := .json
    [("layout", getField s.metadata "layout"), ("prompt", .str s.userPrompt)]

/-- `handleSavePrompt`: alerts and returns without a request when the
trimmed prompt is empty or `metadata.layout` is falsy; otherwise issues the
request and, after the await, alerts on success and on rejection. -/
def handleSavePrompt (s : ClientState) (outcome : NetOutcome) : Trace :=
  if jsBlank s.userPrompt || !jsTruthy (getField s.metadata "layout") then
    [[.alert "❌ Missing prompt or layout"]]
  else
    [ [.emitRequest (savePromptRequest s)],
      match outcome with
      | .ok _ => [.alert "✅ Prompt saved to Supabase!"]
      | .fail msg => [.consoleError msg, .alert "❌ Failed to save prompt"] ]

/-- The submit button is disabled exactly while `loading` is set
(`disabled=\x7bloading\x7d` in the JSX). -/
def processButtonDisabled (s : ClientState) : Bool :=
  s.loading

/-- The submit button label swaps while `loading` is set. -/
def processButtonLabel (s : ClientState) : String :=
  if s.loading then "Processing..." else "Process File"

/-- The four server-derived result fields of a state, as a quadruple. -/
def resultQuad (s : ClientState) : JSVal × JSVal × JSVal × JSVal :=
  (s.metadata, s.description, s.generatedJson, s.suggestedPrompt)

/-- A sample uploaded file, used to instantiate the theorems. -/
def sampleFile : DocFile :=
  ⟨"invoice.pdf"⟩

/-- A sample state in which the process-file preconditions hold. -/
def sampleReady : ClientState :=
  { initState with schemaJson := "schema text", uploadedFile := some sampleFile }

/-- A sample successful process-document response body. -/
def sampleSuccessData : JSVal :=
  .obj [("status", .str "success"),
        ("metadata", .obj [("layout", .str "L1")]),
        ("structured_markdown", .str "md"),
        ("generated_json", .obj [("order_id", .str "123")]),
        ("suggested_prompt", .str "summarize")]

/-- A sample failing process-document response body. -/
def sampleFailData : JSVal :=
  .obj [("status", .str "error"), ("message", .str "bad schema")]

/-- C1: when the process-file response has status `"success"`, the final
state carries all four result fields from the response, and every
observable (rendered) state shows either the old quadruple or the new one
in full — the four fields change together in a single batched update,
never partially. -/
theorem process_success_replaces_quad_atomically
    (s : ClientState) (f : DocFile) (data : JSVal)
    (hf : s.uploadedFile = some f)
    (hs : jsBlank s.schemaJson = false)
    (hok : isSuccessStatus (getField data "status") = true) :
    (runTrace s (handleProcessFile s (.ok data))).metadata
        = getField data "metadata" ∧
    (runTrace s (handleProcessFile s (.ok data))).description
        = getField data "structured_markdown" ∧
    (runTrace s (handleProcessFile s (.ok data))).generatedJson
        = getField data "generated_json" ∧
    (runTrace s (handleProcessFile s (.ok data))).suggestedPrompt
        = jsOr (getField data "suggested_prompt") (.str "") ∧
    ∀ u ∈ obsStates s (handleProcessFile s (.ok data)),
      resultQuad u = resultQuad s ∨
      resultQuad u = resultQuad (runTrace s (handleProcessFile s (.ok data))) := by
  simp only [handleProcessFile, hf, hs, hok]
  simp [runTrace, obsStates, applyPhase, applyAction, resultQuad, List.scanl]

/-- Closed instance of the C1 theorem at a concrete ready state and a
concrete success response. -/
theorem process_success_replaces_quad_atomically_witness :
    sampleReady.uploadedFile = some sampleFile ∧
    jsBlank sampleReady.schemaJson = false ∧
    isSuccessStatus (getField sampleSuccessData "status") = true ∧
    (runTrace sampleReady
        (handleProcessFile sampleReady (.ok sampleSuccessData))).metadata
      = getField sampleSuccessData "metadata" :=
  ⟨rfl, by decide, by decide,
    (process_success_replaces_quad_atomically sampleReady sampleFile
      sampleSuccessData rfl (by decide) (by decide)).1⟩

/-- C2: when the process-file response has a non-success status, the only
alert raised is the server message prefixed by the error marker (so the
alert text contains the server message), and the four result fields are
unchanged; on transport failure the alert carries the error message and
the four fields are likewise unchanged. -/
theorem process_failure_alerts_and_preserves_quad
    (s : ClientState) (f : DocFile) (data : JSVal) (msg : String)
    (hf : s.uploadedFile = some f)
    (hs : jsBlank s.schemaJson = false)
    (hns : isSuccessStatus (getField data "status") = false) :
    (resultQuad (runTrace s (handleProcessFile s (.ok data))) = resultQuad s ∧
      alertsOf (handleProcessFile s (.ok data)) =
        ["❌ Error: " ++ jsToString (getField data "message")] ∧
      ∃ pre post,
        "❌ Error: " ++ jsToString (getField data "message") =
          pre ++ jsToString (getField data "message") ++ post) ∧
    (resultQuad (runTrace s (handleProcessFile s (.fail msg))) = resultQuad s ∧
      alertsOf (handleProcessFile s (.fail msg)) =
        ["❌ API call failed: " ++ msg]) := by
  refine ⟨⟨?_, ?_, "❌ Error: ", "", by simp⟩, ?_, ?_⟩ <;>
    simp only [handleProcessFile, hf, hs, hns] <;>
    simp [runTrace, applyPhase, applyAction, resultQuad, alertsOf,
      traceActions]

/-- Closed instance of the C2 theorem: a mocked non-success response with
message `bad schema` leaves the quadruple unchanged and raises exactly the
alert containing `bad schema`. -/
theorem process_failure_alerts_and_preserves_quad_witness :
    isSuccessStatus (getField sampleFailData "status") = false ∧
    resultQuad (runTrace sampleReady
        (handleProcessFile sampleReady (.ok sampleFailData)))
      = resultQuad sampleReady ∧
    alertsOf (handleProcessFile sampleReady (.ok sampleFailData)) =
      ["❌ Error: bad schema"] := by
  have h := process_failure_alerts_and_preserves_quad sampleReady sampleFile
    sampleFailData "net down" rfl (by decide) (by decide)
  exact ⟨by decide, h.1.1, by simpa using h.1.2.1⟩

/-- C3: process-file with no file selected raises the missing-file alert
and issues no request, whatever the schema text (so the missing-file check
takes precedence when both preconditions fail); with a file but blank or
whitespace-only schema it raises the missing-schema alert and issues no
request. -/
theorem process_precondition_alerts_no_request
    (s : ClientState) (outcome : NetOutcome) :
    (s.uploadedFile = none →
      alertsOf (handleProcessFile s outcome) =
        ["❌ Please upload a file first."] ∧
      requestsOf (handleProcessFile s outcome) = []) ∧
    (∀ f, s.uploadedFile = some f → jsBlank s.schemaJson = true →
      alertsOf (handleProcessFile s outcome) =
        ["❌ Please provide schema JSON in the textarea."] ∧
      requestsOf (handleProcessFile s outcome) = []) := by
  constructor
  · intro hf
    simp [handleProcessFile, hf, alertsOf, requestsOf, traceActions]
  · intro f hf hs
    simp [handleProcessFile, hf, hs, alertsOf, requestsOf, traceActions]

/-- Closed instance of the C3 theorem: no file (initial state), and a file
with whitespace-only schema; neither issues a request. -/
theorem process_precondition_alerts_no_request_witness :
    (alertsOf (handleProcessFile initState (.ok (.obj []))) =
        ["❌ Please upload a file first."] ∧
      requestsOf (handleProcessFile initState (.ok (.obj []))) = []) ∧
    (alertsOf (handleProcessFile
          { initState with uploadedFile := some sampleFile, schemaJson := "  " }
          (.ok (.obj []))) =
        ["❌ Please provide schema JSON in the textarea."] ∧
      requestsOf (handleProcessFile
          { initState with uploadedFile := some sampleFile, schemaJson := "  " }
          (.ok (.obj []))) = []) :=
  ⟨(process_precondition_alerts_no_request initState (.ok (.obj []))).1 rfl,
    (process_precondition_alerts_no_request
        { initState with uploadedFile := some sampleFile, schemaJson := "  " }
        (.ok (.obj []))).2 sampleFile rfl (by decide)⟩

/-- C4 counterexample: in the initial state the try-prompt precondition is
violated (blank prompt), yet the handler raises no alert — it silently
does nothing — refuting the claim that every local precondition failure of
the three operations is reported via a blocking alert. -/
theorem try_prompt_blank_is_silent_cex :
    jsBlank initState.userPrompt = true ∧
    alertsOf (handleTryPrompt initState (.ok (.obj []))) = [] ∧
    requestsOf (handleTryPrompt initState (.ok (.obj []))) = [] := by
  refine ⟨by decide, ?_, ?_⟩ <;> simp [handleTryPrompt, alertsOf, requestsOf,
    traceActions, jsBlank, initState]

/-- C4 amended: every local precondition failure blocks the network
request; the process and save failures are reported via a blocking alert,
while the try-prompt failure (blank prompt) is silent — the handler
performs no action at all. -/
theorem precondition_failures_block_requests
    (s : ClientState) (outcome : NetOutcome) :
    (s.uploadedFile = none →
      alertsOf (handleProcessFile s outcome) =
        ["❌ Please upload a file first."] ∧
      requestsOf (handleProcessFile s outcome) = []) ∧
    (∀ f, s.uploadedFile = some f → jsBlank s.schemaJson = true →
      alertsOf (handleProcessFile s outcome) =
        ["❌ Please provide schema JSON in the textarea."] ∧
      requestsOf (handleProcessFile s outcome) = []) ∧
    (jsBlank s.userPrompt = true →
      handleTryPrompt s outcome = [] ∧
      requestsOf (handleTryPrompt s outcome) = []) ∧
    ((jsBlank s.userPrompt || !jsTruthy (getField s.metadata "layout")) = true →
      alertsOf (handleSavePrompt s outcome) = ["❌ Missing prompt or layout"] ∧
      requestsOf (handleSavePrompt s outcome) = []) := by
  refine ⟨fun hf => ?_, fun f hf hs => ?_, fun hp => ?_, fun hg => ?_⟩
  · simp [handleProcessFile, hf, alertsOf, requestsOf, traceActions]
  · simp [handleProcessFile, hf, hs, alertsOf, requestsOf, traceActions]
  · simp [handleTryPrompt, hp, requestsOf, traceActions]
  · simp [handleSavePrompt, hg, alertsOf, requestsOf, traceActions]

/-- Closed instance of the C4 amended theorem: each of the three handlers
invoked in the initial state (all preconditions violated) issues no
request; process alerts, save alerts, try stays silent. -/
theorem precondition_failures_block_requests_witness :
    (alertsOf (handleProcessFile initState (.ok (.obj []))) =
        ["❌ Please upload a file first."] ∧
      requestsOf (handleProcessFile initState (.ok (.obj []))) = []) ∧
    (handleTryPrompt initState (.ok (.obj [])) = [] ∧
      requestsOf (handleTryPrompt initState (.ok (.obj []))) = []) ∧
    (alertsOf (handleSavePrompt initState (.ok (.obj []))) =
        ["❌ Missing prompt or layout"] ∧
      requestsOf (handleSavePrompt initState (.ok (.obj []))) = []) :=
  ⟨(precondition_failures_block_requests initState (.ok (.obj []))).1 rfl,
    (precondition_failures_block_requests initState (.ok (.obj []))).2.2.1
      (by decide),
    (precondition_failures_block_requests initState (.ok (.obj []))).2.2.2
      (by decide)⟩

/-- A sample state after a successful process call: the metadata carries a
layout identifier and the user has typed a prompt. -/
def sampleChat : ClientState :=
  { initState with
      metadata := .obj [("layout", .str "L1")],
      description := .str "md",
      userPrompt := "summarize" }

/-- C5: save-prompt issues no request when `metadata.layout` is falsy (as
in every state before a successful process call, the initial state's
metadata being the empty object) or when the prompt is blank; when the
prompt is non-blank and a layout is present, exactly one request is issued
and its body is exactly `\x7blayout, prompt\x7d`. -/
theorem save_prompt_guard_and_body (s : ClientState) (outcome : NetOutcome) :
    jsTruthy (getField initState.metadata "layout") = false ∧
    (jsTruthy (getField s.metadata "layout") = false →
      requestsOf (handleSavePrompt s outcome) = []) ∧
    (jsBlank s.userPrompt = true →
      requestsOf (handleSavePrompt s outcome) = []) ∧
    (jsBlank s.userPrompt = false →
      jsTruthy (getField s.metadata "layout") = true →
      requestsOf (handleSavePrompt s outcome) =
        [⟨"http://localhost:8000/save-prompt/",
          .json [("layout", getField s.metadata "layout"),
                 ("prompt", .str s.userPrompt)]⟩]) := by
  refine ⟨by decide, fun hl => ?_, fun hp => ?_, fun hp hl => ?_⟩
  · simp [handleSavePrompt, hl, requestsOf, traceActions]
  · simp [handleSavePrompt, hp, requestsOf, traceActions]
  · cases outcome <;>
      simp [handleSavePrompt, hp, hl, savePromptRequest, requestsOf,
        traceActions]

/-- Closed instance of the C5 theorem: in the initial state save-prompt
issues no request; in a post-process state with a layout and a non-blank
prompt the single request body is exactly the layout and the prompt. -/
theorem save_prompt_guard_and_body_witness :
    requestsOf (handleSavePrompt initState (.ok (.obj []))) = [] ∧
    requestsOf (handleSavePrompt sampleChat (.ok (.obj []))) =
      [⟨"http://localhost:8000/save-prompt/",
        .json [("layout", getField sampleChat.metadata "layout"),
               ("prompt", .str sampleChat.userPrompt)]⟩] :=
  ⟨(save_prompt_guard_and_body initState (.ok (.obj []))).2.1 (by decide),
    (save_prompt_guard_and_body sampleChat (.ok (.obj []))).2.2.2
      (by decide) (by decide)⟩

/-- C6: when the try-prompt call fails (rejected promise: transport or
non-2xx server error), the handler stores the local error object as the
prompt result, raises no alert, and leaves every other state field
unchanged. -/
theorem try_prompt_failure_stores_error
    (s : ClientState) (msg : String)
    (hp : jsBlank s.userPrompt = false) :
    (runTrace s (handleTryPrompt s (.fail msg))).promptResult =
      .obj [("error", .str "Failed to try prompt")] ∧
    alertsOf (handleTryPrompt s (.fail msg)) = [] ∧
    (runTrace s (handleTryPrompt s (.fail msg))).schemaJson = s.schemaJson ∧
    (runTrace s (handleTryPrompt s (.fail msg))).metadata = s.metadata ∧
    (runTrace s (handleTryPrompt s (.fail msg))).description = s.description ∧
    (runTrace s (handleTryPrompt s (.fail msg))).generatedJson =
      s.generatedJson ∧
    (runTrace s (handleTryPrompt s (.fail msg))).suggestedPrompt =
      s.suggestedPrompt ∧
    (runTrace s (handleTryPrompt s (.fail msg))).userPrompt = s.userPrompt ∧
    (runTrace s (handleTryPrompt s (.fail msg))).pdfUrl = s.pdfUrl ∧
    (runTrace s (handleTryPrompt s (.fail msg))).fileType = s.fileType ∧
    (runTrace s (handleTryPrompt s (.fail msg))).loading = s.loading ∧
    (runTrace s (handleTryPrompt s (.fail msg))).uploadedFile =
      s.uploadedFile := by
  simp [handleTryPrompt, hp, runTrace, applyPhase, applyAction, alertsOf,
    traceActions]

/-- Closed instance of the C6 theorem at a concrete chat state and a
concrete transport failure. -/
theorem try_prompt_failure_stores_error_witness :
    jsBlank sampleChat.userPrompt = false ∧
    (runTrace sampleChat (handleTryPrompt sampleChat (.fail "net down"))).promptResult =
      .obj [("error", .str "Failed to try prompt")] ∧
    alertsOf (handleTryPrompt sampleChat (.fail "net down")) = [] :=
  ⟨by decide,
    (try_prompt_failure_stores_error sampleChat "net down" (by decide)).1,
    (try_prompt_failure_stores_error sampleChat "net down" (by decide)).2.1⟩

/-- C7 counterexample: with the non-empty but whitespace-only prompt
consisting of a single space, a try-prompt invocation issues no request at
all, refuting the claim that every invocation with a non-empty prompt
sends a request body. -/
theorem try_prompt_space_prompt_no_request_cex :
    ({ initState with userPrompt := " " } : ClientState).userPrompt ≠ "" ∧
    requestsOf (handleTryPrompt { initState with userPrompt := " " }
      (.ok (.obj []))) = [] := by
  refine ⟨by decide, ?_⟩
  simp [handleTryPrompt, requestsOf, traceActions, jsBlank, initState]

/-- C7 amended: for every try-prompt invocation whose prompt is non-blank
(non-empty after trimming whitespace), exactly one request is issued, its
body is exactly `\x7bprompt, structured_markdown\x7d` built from the current
prompt and description, and on a resolved response the `result` property
is stored verbatim as the prompt result. -/
theorem try_prompt_request_body_and_result
    (s : ClientState) (outcome : NetOutcome)
    (hp : jsBlank s.userPrompt = false) :
    requestsOf (handleTryPrompt s outcome) =
      [⟨"http://localhost:8000/try-prompt/",
        .json [("prompt", .str s.userPrompt),
               ("structured_markdown", s.description)]⟩] ∧
    ∀ data, outcome = .ok data →
      (runTrace s (handleTryPrompt s outcome)).promptResult =
        getField data "result" := by
  constructor
  · cases outcome <;>
      simp [handleTryPrompt, hp, tryPromptRequest, requestsOf, traceActions]
  · rintro data rfl
    simp [handleTryPrompt, hp, runTrace, applyPhase, applyAction]

/-- Closed instance of the C7 amended theorem: concrete chat state and a
concrete resolved response whose result is stored verbatim. -/
theorem try_prompt_request_body_and_result_witness :
    jsBlank sampleChat.userPrompt = false ∧
    requestsOf (handleTryPrompt sampleChat
        (.ok (.obj [("result", .obj [("ok", .bool true)])]))) =
      [⟨"http://localhost:8000/try-prompt/",
        .json [("prompt", .str "summarize"),
               ("structured_markdown", .str "md")]⟩] ∧
    (runTrace sampleChat (handleTryPrompt sampleChat
        (.ok (.obj [("result", .obj [("ok", .bool true)])])))).promptResult =
      .obj [("ok", .bool true)] := by
  have h := try_prompt_request_body_and_result sampleChat
    (.ok (.obj [("result", .obj [("ok", .bool true)])])) (by decide)
  exact ⟨by decide, h.1, (h.2 _ rfl).trans rfl⟩

/-- C8: when the process-file preconditions hold, the first synchronous
block sets the loading flag and only then emits the request; on every
outcome (success status, other status, rejection) the trace ends by
resetting the flag, the rendered state while the call is pending has the
submit control disabled, and the final rendered state has the flag cleared
and the control re-enabled. -/
theorem process_loading_flag_lifecycle
    (s : ClientState) (f : DocFile) (outcome : NetOutcome)
    (hf : s.uploadedFile = some f)
    (hs : jsBlank s.schemaJson = false) :
    (handleProcessFile s outcome).head? =
      some [.setLoading true, .emitRequest (processRequest s f)] ∧
    obsStates s (handleProcessFile s outcome) =
      [s, { s with loading := true },
        runTrace s (handleProcessFile s outcome)] ∧
    processButtonDisabled { s with loading := true } = true ∧
    processButtonLabel { s with loading := true } = "Processing..." ∧
    (runTrace s (handleProcessFile s outcome)).loading = false ∧
    processButtonDisabled (runTrace s (handleProcessFile s outcome)) = false ∧
    (traceActions (handleProcessFile s outcome)).getLast? =
      some (.setLoading false) := by
  rcases outcome with data | msg
  · by_cases hok : isSuccessStatus (getField data "status") <;>
      simp [handleProcessFile, hf, hs, hok, obsStates, runTrace, List.scanl,
        applyPhase, applyAction, traceActions, processButtonDisabled,
        processButtonLabel]
  · simp [handleProcessFile, hf, hs, obsStates, runTrace, List.scanl,
      applyPhase, applyAction, traceActions, processButtonDisabled,
      processButtonLabel]

/-- Closed instance of the C8 theorem: concrete ready state, success
outcome; flag set before the request, cleared at the end. -/
theorem process_loading_flag_lifecycle_witness :
    (handleProcessFile sampleReady (.ok sampleSuccessData)).head? =
      some [.setLoading true,
        .emitRequest (processRequest sampleReady sampleFile)] ∧
    (runTrace sampleReady
      (handleProcessFile sampleReady (.ok sampleSuccessData))).loading = false ∧
    (traceActions (handleProcessFile sampleReady (.ok sampleSuccessData))).getLast?
      = some (.setLoading false) :=
  ⟨(process_loading_flag_lifecycle sampleReady sampleFile
      (.ok sampleSuccessData) rfl (by decide)).1,
    (process_loading_flag_lifecycle sampleReady sampleFile
      (.ok sampleSuccessData) rfl (by decide)).2.2.2.2.1,
    (process_loading_flag_lifecycle sampleReady sampleFile
      (.ok sampleSuccessData) rfl (by decide)).2.2.2.2.2.2⟩

/-- C9: a file-selection event that delivers no file (empty selected-files
list, e.g. a cancelled picker) leaves the whole client state unchanged —
in particular the stored file reference, the file type and the preview
handle keep their previous values. -/
theorem file_upload_no_file_noop (s : ClientState) (url : String) :
    handleFileUpload [] url = [] ∧
    runTrace s (handleFileUpload [] url) = s ∧
    (runTrace s (handleFileUpload [] url)).uploadedFile = s.uploadedFile ∧
    (runTrace s (handleFileUpload [] url)).fileType = s.fileType ∧
    (runTrace s (handleFileUpload [] url)).pdfUrl = s.pdfUrl :=
  ⟨rfl, rfl, rfl, rfl, rfl⟩

/-- A sample successful process-document response body without any
`suggested_prompt` field. -/
def sampleNoSuggestData : JSVal :=
  .obj [("status", .str "success"),
        ("metadata", .obj [("layout", .str "L2")]),
        ("structured_markdown", .str "other md"),
        ("generated_json", .obj [("total", .num 7)])]

/-- C10: on a success response whose `suggested_prompt` is falsy (absent —
hence undefined — null, or any other falsy value), the suggested-prompt
state becomes the empty string, never undefined or null, while metadata,
description and generated JSON are stored exactly as received, with no
such normalisation. -/
theorem process_success_normalises_suggested_prompt
    (s : ClientState) (f : DocFile) (data : JSVal)
    (hf : s.uploadedFile = some f)
    (hs : jsBlank s.schemaJson = false)
    (hok : isSuccessStatus (getField data "status") = true)
    (hfp : jsTruthy (getField data "suggested_prompt") = false) :
    (runTrace s (handleProcessFile s (.ok data))).suggestedPrompt = .str "" ∧
    (runTrace s (handleProcessFile s (.ok data))).metadata
      = getField data "metadata" ∧
    (runTrace s (handleProcessFile s (.ok data))).description
      = getField data "structured_markdown" ∧
    (runTrace s (handleProcessFile s (.ok data))).generatedJson
      = getField data "generated_json" := by
  simp [handleProcessFile, hf, hs, hok, runTrace, applyPhase, applyAction,
    jsOr, hfp]

/-- Closed instance of the C10 theorem at a success response with no
`suggested_prompt` field. -/
theorem process_success_normalises_suggested_prompt_witness :
    jsTruthy (getField sampleNoSuggestData "suggested_prompt") = false ∧
    (runTrace sampleReady
        (handleProcessFile sampleReady (.ok sampleNoSuggestData))).suggestedPrompt
      = .str "" ∧
    (runTrace sampleReady
        (handleProcessFile sampleReady (.ok sampleNoSuggestData))).metadata
      = getField sampleNoSuggestData "metadata" :=
  ⟨by decide,
    (process_success_normalises_suggested_prompt sampleReady sampleFile
      sampleNoSuggestData rfl (by decide) (by decide) (by decide)).1,
    (process_success_normalises_suggested_prompt sampleReady sampleFile
      sampleNoSuggestData rfl (by decide) (by decide) (by decide)).2.1⟩

end DocIntel
